import Mathlib

/- Shallow embedding of the timer-cli program (src/main.rs): the colon-separated
duration parser (`parse_duration`), the hierarchical duration display
(`DurationDisplay::fmt`), and the timer event loop (`run_timer` together with
`process_event_branch` and `print_paused`) as a step function on an explicit
session state. Rust `std::time::Duration` is modelled as a pair of natural
numbers (whole seconds below 2^64 and nanoseconds below 10^9); `u64` arithmetic
is modelled on `Nat` with explicit bounds checks against 2^64. A branch of the
Rust code that panics (unchecked `Duration` addition or subtraction) is mapped
to an explicit `panics` result. -/

def u64Bound : Nat := 18446744073709551616

def nanosPerSec : Nat := 1000000000

/-- Model of `std::time::Duration`: whole seconds and sub-second nanoseconds. -/
structure Dur where
  secs : Nat
  nanos : Nat
deriving DecidableEq

def Dur.zero : Dur := ⟨0, 0⟩

/-- Model of `Duration::from_secs`. -/
def Dur.fromSecs (n : Nat) : Dur := ⟨n, 0⟩

/-- Model of `Duration::from_millis`. -/
def Dur.fromMillis (n : Nat) : Dur := ⟨n / 1000, n % 1000 * 1000000⟩

/-- Model of `Duration::is_zero`. -/
def Dur.isZero (d : Dur) : Bool := d.secs == 0 && d.nanos == 0

/-- Model of `Duration::checked_add`: fails when the seconds (with nanosecond
carry) no longer fit in `u64`. -/
def Dur.checkedAdd (a b : Dur) : Option Dur :=
  let n := a.nanos + b.nanos
  let s := a.secs + b.secs + n / nanosPerSec
  if s < u64Bound then some ⟨s, n % nanosPerSec⟩ else none

/-- Model of `Duration::checked_sub`: fails when the subtrahend is larger. -/
def Dur.checkedSub (a b : Dur) : Option Dur :=
  if b.secs ≤ a.secs then
    if b.nanos ≤ a.nanos then some ⟨a.secs - b.secs, a.nanos - b.nanos⟩
    else if 1 ≤ a.secs - b.secs then
      some ⟨a.secs - b.secs - 1, a.nanos + nanosPerSec - b.nanos⟩
    else none
  else none

/-- Ordering on durations (lexicographic on seconds, then nanoseconds). -/
def Dur.le (a b : Dur) : Prop :=
  a.secs < b.secs ∨ (a.secs = b.secs ∧ a.nanos ≤ b.nanos)

instance (a b : Dur) : Decidable (Dur.le a b) := by
  unfold Dur.le
  exact inferInstance

/-- Model of `core::num::ParseIntError` kinds reachable from `u64` parsing. -/
inductive IntErrKind where
  | empty
  | invalidDigit
  | posOverflow
deriving DecidableEq

/-- Digit-accumulation loop of Rust `u64::from_str`: rejects non-digits and
values that no longer fit in `u64`. -/
def parseU64Digits (acc : Nat) : List Char → Except IntErrKind Nat
  | [] => .ok acc
  | c :: rest =>
    if c.isDigit then
      let acc2 := acc * 10 + (c.toNat - 48)
      if acc2 < u64Bound then parseU64Digits acc2 rest else .error .posOverflow
    else .error .invalidDigit

/-- Model of `str::parse::<u64>`: empty input is `Empty`, a lone sign is
`InvalidDigit`, a leading `+` is allowed, and the digits are folded with an
overflow check. -/
def parseU64 (s : List Char) : Except IntErrKind Nat :=
  match s with
  | [] => .error .empty
  | ['+'] => .error .invalidDigit
  | '+' :: c :: rest => parseU64Digits 0 (c :: rest)
  | l => parseU64Digits 0 l

/-- Model of `str::split` with a single-character pattern: splitting the empty
string yields one empty token, exactly as in Rust. -/
def splitOnChar (sep : Char) : List Char → List (List Char)
  | [] => [[]]
  | c :: rest =>
    match splitOnChar sep rest with
    | [] => [[]]
    | cur :: done =>
      if c == sep then [] :: cur :: done else (c :: cur) :: done

/-- Model of `human_errors` causes used by the parser: either a leaf user error
or a wrapped `ParseIntError`. -/
inductive Cause where
  | userLeaf (title hint : String)
  | intParse (kind : IntErrKind)
deriving DecidableEq

/-- Model of the `human_errors::Error` values built by `parse_duration`. -/
structure PErr where
  title : String
  hint : String
  cause : Option Cause
deriving DecidableEq

/-- Outcome of `parse_duration`: a duration, a user error, or a panic of the
Rust process (unchecked `Duration` addition). -/
inductive PResult where
  | ok (d : Dur)
  | err (e : PErr)
  | panics
deriving DecidableEq

def fmtHint : String := "Provide the duration in the following format: \"[[[d:]h:]m:]s\""

def missingPartsErr : PErr :=
  ⟨"Failed to parse the duration", fmtHint,
    some (.userLeaf "Missing parts" "Make sure to provide at least the seconds part of the duration")⟩

def tooManyPartsErr : PErr :=
  ⟨"Failed to parse the duration", fmtHint,
    some (.userLeaf "Too many parts" "Make sure to provide at most 4 parts for days, hours, minutes, and seconds")⟩

def tooManyDotsErr : PErr :=
  ⟨"Failed to parse the duration", fmtHint,
    some (.userLeaf "Too many parts in seconds.milliseconds" "Make sure to provide at most one dot in the seconds part")⟩

def secondsPartErr (k : IntErrKind) : PErr :=
  ⟨"Failed to parse the seconds part", "Make sure to provide a valid number for the seconds part",
    some (.intParse k)⟩

def msPartErr (k : IntErrKind) : PErr :=
  ⟨"Failed to parse the milliseconds part", "Make sure to provide a valid number for the milliseconds part",
    some (.intParse k)⟩

def durationPartErr (k : IntErrKind) : PErr :=
  ⟨"Failed to parse a duration part", "Make sure to provide a valid number for the duration part",
    some (.intParse k)⟩

def overflowErr (unit : String) : PErr :=
  ⟨"Duration overflow", "The provided duration is too large to be represented",
    some (.userLeaf ("Overflow in " ++ unit) "Make sure the value is within a reasonable range")⟩

def invalidPartErr : PErr :=
  ⟨"Invalid duration part", "Make sure to provide a valid number for the duration part", none⟩

/-- Model of `u64::checked_mul`. -/
def u64CheckedMul (a b : Nat) : Option Nat :=
  if a * b < u64Bound then some (a * b) else none

/-- The `for (i, part) in parts.iter().enumerate().skip(1)` loop of
`parse_duration`: folds the minutes, hours and days fields onto the duration
with checked multiplication and addition. -/
def accumParts : Dur → Nat → List (List Char) → PResult
  | d, _, [] => .ok d
  | d, i, part :: rest =>
    match parseU64 part with
    | .error k => .err (durationPartErr k)
    | .ok value =>
      match i with
      | 1 =>
        match u64CheckedMul value 60 with
        | none => .err (overflowErr "minutes")
        | some v =>
          match Dur.checkedAdd d (Dur.fromSecs v) with
          | none => .err (overflowErr "minutes")
          | some d2 => accumParts d2 (i + 1) rest
      | 2 =>
        match u64CheckedMul value 3600 with
        | none => .err (overflowErr "hours")
        | some v =>
          match Dur.checkedAdd d (Dur.fromSecs v) with
          | none => .err (overflowErr "hours")
          | some d2 => accumParts d2 (i + 1) rest
      | 3 =>
        match u64CheckedMul value 86400 with
        | none => .err (overflowErr "days")
        | some v =>
          match Dur.checkedAdd d (Dur.fromSecs v) with
          | none => .err (overflowErr "days")
          | some d2 => accumParts d2 (i + 1) rest
      | _ => .err invalidPartErr

/-- Seconds-and-milliseconds handling of `parse_duration`: parse the seconds
field, optionally the milliseconds field, and combine them with the Rust
program's unchecked `s + ms` (a panic when the sum overflows), then fold the
remaining fields. -/
def parseSecondsTail (sPart : List Char) (msPart : Option (List Char))
    (rest : List (List Char)) : PResult :=
  match parseU64 sPart with
  | .error k => .err (secondsPartErr k)
  | .ok sv =>
    match msPart with
    | none =>
      match Dur.checkedAdd (Dur.fromSecs sv) Dur.zero with
      | none => .panics
      | some d => accumParts d 1 rest
    | some msp =>
      match parseU64 msp with
      | .error k => .err (msPartErr k)
      | .ok mv =>
        match Dur.checkedAdd (Dur.fromSecs sv) (Dur.fromMillis mv) with
        | none => .panics
        | some d => accumParts d 1 rest

/-- Model of `parse_duration` from src/main.rs: split on `:` from the right
taking at most 5 tokens, reject empty token lists and more than 4 tokens, split
the rightmost token on `.` taking at most 3 pieces, then parse and accumulate
the fields. -/
def parse_duration (s : String) : PResult :=
  match (splitOnChar ':' s.data).reverse.take 5 with
  | [] => .err missingPartsErr
  | sMs :: restParts =>
    if 4 < restParts.length + 1 then .err tooManyPartsErr
    else
      match (splitOnChar '.' sMs).take 3 with
      | [] => .panics
      | [sPart] => parseSecondsTail sPart none restParts
      | [sPart, msPart] => parseSecondsTail sPart (some msPart) restParts
      | _ => .err tooManyDotsErr


/-- Model of `DurationDisplay`'s `fmt` in src/main.rs: hierarchical rendering
of days, hours, minutes and seconds from the whole-second count. -/
def durationDisplay (d : Dur) : String :=
  let totalSeconds := d.secs
  let days := totalSeconds / 86400
  let hours := totalSeconds % 86400 / 3600
  let minutes := totalSeconds % 3600 / 60
  let seconds := totalSeconds % 60
  (if 0 < days then toString days ++ "d " else "")
    ++ (if 0 < hours ∨ 0 < days then toString hours ++ "h " else "")
    ++ (if 0 < minutes ∨ 0 < hours ∨ 0 < days then toString minutes ++ "m " else "")
    ++ (toString seconds ++ "s")

/-- Helper for `displaySpec`: show a unit when its value is nonzero or some
larger unit was already shown. -/
def showUnits : Bool → List (Nat × String) → String
  | _, [] => ""
  | seen, (v, u) :: rest =>
    if 0 < v ∨ seen = true then toString v ++ u ++ showUnits true rest
    else showUnits seen rest

/-- Modelled from the spec: the remaining-time line "omit leading zero-valued
larger units but always show all units once a larger nonzero unit is present
(seconds is always shown)". Stated independently of the source's
`DurationDisplay` so the two renderings can be compared. -/
def displaySpec (d : Dur) : String :=
  let t := d.secs
  showUnits false [(t / 86400, "d "), (t % 86400 / 3600, "h "), (t % 3600 / 60, "m ")]
    ++ (toString (t % 60) ++ "s")

theorem strNilAppend (a : String) : "" ++ a = a := by
  cases a with
  | mk l => rfl

theorem strAppendNil (a : String) : a ++ "" = a := by
  cases a with
  | mk l =>
    show String.mk (l ++ []) = String.mk l
    rw [List.append_nil]

theorem strAppendAssoc (a b c : String) : a ++ b ++ c = a ++ (b ++ c) := by
  cases a with
  | mk la =>
    cases b with
    | mk lb =>
      cases c with
      | mk lc =>
        show String.mk (la ++ lb ++ lc) = String.mk (la ++ (lb ++ lc))
        rw [List.append_assoc]

theorem display_eq_displaySpec (d : Dur) : durationDisplay d = displaySpec d := by
  unfold durationDisplay displaySpec
  by_cases hd : 0 < d.secs / 86400 <;>
    by_cases hh : 0 < d.secs % 86400 / 3600 <;>
      by_cases hm : 0 < d.secs % 3600 / 60 <;>
        simp [showUnits, hd, hh, hm, strAppendAssoc, strAppendNil, strNilAppend]

/-- Events the `tokio::select!` loop of `run_timer` reacts to: the periodic
tick, a key event (with control-modifier and press-kind flags), any other
terminal event, the end of the event stream, and a read error. -/
inductive TEvent where
  | tick
  | key (code : Char) (ctrl : Bool) (press : Bool)
  | otherEvent
  | eof
  | readErr
deriving DecidableEq

/-- Terminal operations issued by `run_timer`, `process_event_branch` and
`print_paused` (crossterm commands, abstracted). -/
inductive RenderOp where
  | beginSync
  | endSync
  | clearAll
  | clearLine
  | moveTo (col row : Nat)
  | showCursor
  | leaveAltScreen
  | print (s : String)
deriving DecidableEq

/-- Mutable session state of `run_timer`: the remaining duration, the `paused`
flag and the `paused_print` flag (initially `true`). -/
structure LoopState where
  duration : Dur
  paused : Bool
  pausedPrint : Bool
deriving DecidableEq

/-- Result of one loop iteration: continue with a new state after emitting
terminal output, leave the loop normally (the
"Timer finished!" epilogue), return after the user stopped the timer, abort
with a fatal system error, or panic (unchecked `Duration` subtraction). -/
inductive StepRes where
  | cont (st : LoopState) (out : List RenderOp)
  | finished (out : List RenderOp)
  | stopped (out : List RenderOp)
  | fatal (title : String)
  | panics
deriving DecidableEq

def pausedHelpMsg : String := "Timer is paused. Press \x27p\x27 to resume or \x27q\x27 to quit."

/-- Model of `print_paused`: when the flag is set, print the PAUSED banner and
the help line and clear the flag; otherwise clear the banner line, reprint the
help line and set the flag again. Returns the emitted operations and the new
flag value. -/
def printPaused (pr : Bool) : List RenderOp × Bool :=
  if pr then
    ([.moveTo 0 1, .print "PAUSED", .moveTo 0 2, .print pausedHelpMsg], false)
  else
    ([.moveTo 0 1, .clearLine, .moveTo 0 2, .print pausedHelpMsg], true)

/-- Operations emitted when a pause-key press resumes the countdown. -/
def unpauseOps : List RenderOp :=
  [.beginSync, .moveTo 0 1, .clearLine, .moveTo 0 2, .clearLine, .endSync]

/-- Operations of a countdown tick: synchronized clear-and-reprint of the
remaining-time line (using the value before the decrement). -/
def tickRenderOps (d : Dur) : List RenderOp :=
  [.beginSync, .clearAll, .moveTo 0 0,
    .print ("Remaining time: " ++ durationDisplay d), .endSync]

/-- Operations of the user-stop path: restore the screen and print the summary
with the remaining and elapsed durations. -/
def stopOps (remaining elapsed : Dur) : List RenderOp :=
  [.showCursor, .leaveAltScreen,
    .print ("Timer stopped by user at " ++ durationDisplay remaining ++ ", after "
      ++ durationDisplay elapsed ++ ".\n")]

/-- Operations of the normal-completion epilogue after the loop breaks. -/
def finishOps : List RenderOp :=
  [.showCursor, .leaveAltScreen, .print "Timer finished!\n"]

def tickPeriod : Dur := Dur.fromSecs 1

/-- One iteration of the `run_timer` loop: the tick branch (lines 109-144 of
src/main.rs) and `process_event_branch` (lines 171-253), with the Rust
program's unchecked `initial_duration - duration` and `duration -= tick_period`
subtractions mapped to `panics` when they underflow. -/
def timerStep (initialDuration : Dur) (st : LoopState) (ev : TEvent) : StepRes :=
  match ev with
  | .tick =>
    if st.paused then
      .cont { st with pausedPrint := (printPaused st.pausedPrint).2 }
        (.beginSync :: (printPaused st.pausedPrint).1)
    else if st.duration.isZero then .finished finishOps
    else
      match Dur.checkedSub st.duration tickPeriod with
      | none => .panics
      | some d2 => .cont { st with duration := d2 } (tickRenderOps st.duration)
  | .key code ctrl press =>
    if (code == 'q' && press) || (code == 'c' && ctrl && press) then
      match Dur.checkedSub initialDuration st.duration with
      | none => .panics
      | some elapsed => .stopped (stopOps st.duration elapsed)
    else if code == 'p' && press then
      if !st.paused then
        .cont { st with paused := !st.paused, pausedPrint := (printPaused st.pausedPrint).2 }
          (printPaused st.pausedPrint).1
      else
        .cont { st with paused := !st.paused } unpauseOps
    else .cont st []
  | .otherEvent => .cont st []
  | .eof => .finished finishOps
  | .readErr => .fatal "Failed to read events"

/-- Iterated loop steps: the resulting state after a list of events, or `none`
as soon as an iteration does not continue the loop. -/
def timerRun (initialDuration : Dur) : LoopState → List TEvent → Option LoopState
  | st, [] => some st
  | st, ev :: evs =>
    match timerStep initialDuration st ev with
    | .cont st2 _ => timerRun initialDuration st2 evs
    | _ => none

theorem dur_le_refl (a : Dur) : Dur.le a a := Or.inr ⟨rfl, Nat.le_refl _⟩

theorem dur_le_trans {a b c : Dur} (h1 : Dur.le a b) (h2 : Dur.le b c) : Dur.le a c := by
  unfold Dur.le at h1 h2 ⊢
  omega

theorem checkedSub_some_le (a b c : Dur) (h : Dur.checkedSub a b = some c) : Dur.le c a := by
  unfold Dur.checkedSub at h
  split at h
  · split at h
    · simp only [Option.some.injEq] at h
      subst h
      unfold Dur.le
      dsimp only
      omega
    · split at h
      · simp only [Option.some.injEq] at h
        subst h
        unfold Dur.le
        dsimp only
        omega
      · exact Option.noConfusion h
  · exact Option.noConfusion h

theorem dur_le_checkedSub_isSome (a b : Dur) (h : Dur.le a b) :
    (Dur.checkedSub b a).isSome = true := by
  unfold Dur.le at h
  unfold Dur.checkedSub
  split
  · split
    · rfl
    · split
      · rfl
      · exfalso
        omega
  · exfalso
    omega

theorem timerStep_cont_le (init : Dur) (st : LoopState) (ev : TEvent)
    (st2 : LoopState) (ops : List RenderOp)
    (h : timerStep init st ev = .cont st2 ops) : Dur.le st2.duration st.duration := by
  cases ev with
  | tick =>
    simp only [timerStep] at h
    split at h
    · simp only [StepRes.cont.injEq] at h
      obtain ⟨h1, -⟩ := h
      subst h1
      exact dur_le_refl _
    · split at h
      · exact StepRes.noConfusion h
      · cases hs : Dur.checkedSub st.duration tickPeriod with
        | none => rw [hs] at h; exact StepRes.noConfusion h
        | some d2 =>
          rw [hs] at h
          simp only [StepRes.cont.injEq] at h
          obtain ⟨h1, -⟩ := h
          subst h1
          exact checkedSub_some_le _ _ _ hs
  | key code ctrl press =>
    simp only [timerStep] at h
    split at h
    · cases hs : Dur.checkedSub init st.duration with
      | none => rw [hs] at h; exact StepRes.noConfusion h
      | some e => rw [hs] at h; exact StepRes.noConfusion h
    · split at h
      · split at h <;>
          (simp only [StepRes.cont.injEq] at h
           obtain ⟨h1, -⟩ := h
           subst h1
           exact dur_le_refl _)
      · simp only [StepRes.cont.injEq] at h
        obtain ⟨h1, -⟩ := h
        subst h1
        exact dur_le_refl _
  | otherEvent =>
    simp only [timerStep, StepRes.cont.injEq] at h
    obtain ⟨h1, -⟩ := h
    subst h1
    exact dur_le_refl _
  | eof => exact StepRes.noConfusion h
  | readErr => exact StepRes.noConfusion h

theorem timerRun_le (init : Dur) (evs : List TEvent) :
    ∀ st0 st, timerRun init st0 evs = some st → Dur.le st.duration st0.duration := by
  induction evs with
  | nil =>
    intro st0 st h
    simp only [timerRun, Option.some.injEq] at h
    subst h
    exact dur_le_refl _
  | cons ev evs ih =>
    intro st0 st h
    simp only [timerRun] at h
    cases hs : timerStep init st0 ev with
    | cont st1 ops =>
      rw [hs] at h
      exact dur_le_trans (ih st1 st h) (timerStep_cont_le init st0 ev st1 ops hs)
    | finished o => rw [hs] at h; exact Option.noConfusion h
    | stopped o => rw [hs] at h; exact Option.noConfusion h
    | fatal t => rw [hs] at h; exact Option.noConfusion h
    | panics => rw [hs] at h; exact Option.noConfusion h

/-- Claim C1: the duration parser maps the spec's example inputs to the stated
values: "5" is 5 seconds, "1:30" is 90 seconds, "1:2:3:4" is 1 day + 2 hours +
3 minutes + 4 seconds, and "0:0:0:1.500" is 1.5 seconds. -/
theorem c1_parse_examples :
    parse_duration "5" = .ok (Dur.fromSecs 5) ∧
    parse_duration "1:30" = .ok (Dur.fromSecs 90) ∧
    parse_duration "1:2:3:4" = .ok (Dur.fromSecs (1 * 86400 + 2 * 3600 + 3 * 60 + 4)) ∧
    parse_duration "0:0:0:1.500" = .ok ⟨1, 500000000⟩ := by decide

/-- Claim C2, counterexample: parse("99999999999999999999:0") does not return
the "Duration overflow" error naming minutes; the 20-digit value exceeds `u64`
and already fails integer parsing, so the error is "Failed to parse a duration
part" wrapping a positive-overflow parse failure. -/
theorem c2_counterexample :
    parse_duration "99999999999999999999:0" = .err (durationPartErr .posOverflow) ∧
    (durationPartErr .posOverflow).title ≠ "Duration overflow" ∧
    durationPartErr .posOverflow ≠ overflowErr "minutes" ∧
    (durationPartErr .posOverflow).cause = some (.intParse .posOverflow) := by decide

/-- Claim C2, amended: parse("99999999999999999999:0") fails with the
duration-part parse error wrapping the `u64` positive-overflow cause (no
wraparound), while the "Duration overflow" error naming minutes arises for
`u64`-representable magnitudes such as parse("999999999999999999:0"). -/
theorem c2_amended :
    parse_duration "99999999999999999999:0" = .err (durationPartErr .posOverflow) ∧
    (durationPartErr .posOverflow).cause = some (.intParse .posOverflow) ∧
    parse_duration "999999999999999999:0" = .err (overflowErr "minutes") ∧
    (overflowErr "minutes").cause =
      some (.userLeaf "Overflow in minutes" "Make sure the value is within a reasonable range") := by
  decide

/-- Claim C3, evaluation at the failing input: the `s + ms` step of
`parse_duration` uses unchecked `Duration` addition, so
parse("18446744073709551615.1000") panics (u64::MAX seconds plus 1 second of
milliseconds overflows) instead of reporting a "Duration overflow" error. -/
theorem c3_overflow_panic_eval :
    parse_duration "18446744073709551615.1000" = .panics := by decide

/-- Claim C4, counterexample: parse("") does not fail with the "missing parts"
error kind; splitting the empty string on a colon yields one empty token, so
the parser reports the seconds-part parse error (empty-string integer parse)
instead. -/
theorem c4_counterexample :
    parse_duration "" = .err (secondsPartErr .empty) ∧
    secondsPartErr .empty ≠ missingPartsErr := by decide

/-- Claim C4, amended: parse("") fails with the seconds-part parse error (the
"Missing parts" branch is unreachable because splitting "" on a colon yields
one empty token), parse(":::::") fails with the "Too many parts" error, and
the two error kinds are distinguishable. -/
theorem c4_amended :
    parse_duration "" = .err (secondsPartErr .empty) ∧
    parse_duration ":::::" = .err tooManyPartsErr ∧
    secondsPartErr .empty ≠ tooManyPartsErr := by decide

/-- Claim C5, evaluation at the failing input: the timer accepts the
millisecond duration "1.500"; the first Running tick decrements it by one
second to 0.5 s, and the next tick underflows the unchecked
`duration -= tick_period` subtraction, i.e. the loop panics instead of
reaching zero and finishing. -/
theorem c5_underflow_eval :
    parse_duration "1.500" = .ok ⟨1, 500000000⟩ ∧
    timerStep ⟨1, 500000000⟩ ⟨⟨1, 500000000⟩, false, true⟩ .tick =
      .cont ⟨⟨0, 500000000⟩, false, true⟩ (tickRenderOps ⟨1, 500000000⟩) ∧
    timerStep ⟨1, 500000000⟩ ⟨⟨0, 500000000⟩, false, true⟩ .tick = .panics := by decide

/-- Claim C6: from Running, a pause-key press transitions to Paused leaving the
remaining duration unchanged; every tick in Paused leaves the duration
unchanged; and a second pause-key press (with or without intervening ticks)
returns to Running with exactly the frozen duration. -/
theorem c6_pause_freeze (init d : Dur) (pp : Bool) :
    timerStep init ⟨d, false, pp⟩ (.key 'p' false true) =
      .cont ⟨d, true, (printPaused pp).2⟩ (printPaused pp).1 ∧
    (∀ b : Bool, timerStep init ⟨d, true, b⟩ .tick =
      .cont ⟨d, true, (printPaused b).2⟩ (.beginSync :: (printPaused b).1)) ∧
    (∀ b : Bool, timerStep init ⟨d, true, b⟩ (.key 'p' false true) =
      .cont ⟨d, false, b⟩ unpauseOps) :=
  ⟨rfl, fun _ => rfl, fun _ => rfl⟩

/-- Claim C7: from any non-terminal state (Running or Paused), a quit-key
press or a Ctrl-C key event transitions to the user-stopped outcome, and the
stop summary reports the elapsed time computed exactly as
`initial_duration - duration`. -/
theorem c7_quit_stop (init d : Dur) (p pp : Bool) (elapsed : Dur)
    (h : Dur.checkedSub init d = some elapsed) :
    timerStep init ⟨d, p, pp⟩ (.key 'q' false true) = .stopped (stopOps d elapsed) ∧
    timerStep init ⟨d, p, pp⟩ (.key 'c' true true) = .stopped (stopOps d elapsed) ∧
    stopOps d elapsed = [.showCursor, .leaveAltScreen,
      .print ("Timer stopped by user at " ++ durationDisplay d ++ ", after "
        ++ durationDisplay elapsed ++ ".\n")] := by
  refine ⟨?_, ?_, rfl⟩ <;>
    · show (match Dur.checkedSub init d with
        | none => StepRes.panics
        | some e => StepRes.stopped (stopOps d e)) = _
      rw [h]

/-- Witness for C7 at a concrete state: initial 5 s, remaining 2 s, elapsed
3 s. -/
theorem c7_quit_stop_witness :
    timerStep ⟨5, 0⟩ ⟨⟨2, 0⟩, false, true⟩ (.key 'q' false true) =
      .stopped (stopOps ⟨2, 0⟩ ⟨3, 0⟩) ∧
    timerStep ⟨5, 0⟩ ⟨⟨2, 0⟩, false, true⟩ (.key 'c' true true) =
      .stopped (stopOps ⟨2, 0⟩ ⟨3, 0⟩) ∧
    stopOps ⟨2, 0⟩ ⟨3, 0⟩ = [.showCursor, .leaveAltScreen,
      .print ("Timer stopped by user at " ++ durationDisplay ⟨2, 0⟩ ++ ", after "
        ++ durationDisplay ⟨3, 0⟩ ++ ".\n")] :=
  c7_quit_stop ⟨5, 0⟩ ⟨2, 0⟩ false true ⟨3, 0⟩ rfl

/-- Claim C8, counterexample: "0:90" parses as 0 minutes and 90 seconds (the
rightmost field is seconds), so format(parse("0:90")) is "1m 30s", not the
claimed "1h 30m 0s". -/
theorem c8_counterexample :
    parse_duration "0:90" = .ok ⟨90, 0⟩ ∧
    durationDisplay ⟨90, 0⟩ = "1m 30s" ∧
    "1m 30s" ≠ "1h 30m 0s" := by decide

/-- Claim C8, amended: the display renders hierarchical units exactly as the
spec's omission rule prescribes (proved against an independent rendering of
that rule), and the carry-normalisation example holds for 90 minutes written
"90:0", which displays as "1h 30m 0s", while "0:90" is 90 seconds and
displays as "1m 30s". -/
theorem c8_amended :
    (∀ d : Dur, durationDisplay d = displaySpec d) ∧
    parse_duration "90:0" = .ok ⟨5400, 0⟩ ∧
    durationDisplay ⟨5400, 0⟩ = "1h 30m 0s" ∧
    parse_duration "0:90" = .ok ⟨90, 0⟩ ∧
    durationDisplay ⟨90, 0⟩ = "1m 30s" :=
  ⟨display_eq_displaySpec, by decide, by decide, by decide, by decide⟩

/-- Claim C9, counterexample: in Paused with the banner already shown
(`paused_print = false`), a tick still writes to the terminal (clearing the
banner line and reprinting the help line) and sets the flag back, so banner
rendering is not idempotent across repeated paused ticks. -/
theorem c9_counterexample :
    timerStep ⟨5, 0⟩ ⟨⟨3, 0⟩, true, false⟩ .tick =
      .cont ⟨⟨3, 0⟩, true, true⟩
        [.beginSync, .moveTo 0 1, .clearLine, .moveTo 0 2, .print pausedHelpMsg] ∧
    ([RenderOp.beginSync, .moveTo 0 1, .clearLine, .moveTo 0 2, .print pausedHelpMsg] ≠
      ([RenderOp.beginSync] : List RenderOp)) ∧
    (⟨⟨3, 0⟩, true, true⟩ : LoopState).pausedPrint ≠
      (⟨⟨3, 0⟩, true, false⟩ : LoopState).pausedPrint := by decide

/-- Claim C9, amended: each tick in Paused performs no countdown decrement but
always writes: `print_paused` toggles the paused-message flag every paused
tick, printing the PAUSED banner and help line when the flag is set and
clearing the banner line while reprinting the help line when it is clear, so
the banner alternates instead of being redrawn only when not already shown. -/
theorem c9_amended_blink (init d : Dur) (b : Bool) :
    timerStep init ⟨d, true, b⟩ .tick =
      .cont ⟨d, true, !b⟩ (.beginSync :: (printPaused b).1) ∧
    printPaused true = ([.moveTo 0 1, .print "PAUSED", .moveTo 0 2, .print pausedHelpMsg], false) ∧
    printPaused false = ([.moveTo 0 1, .clearLine, .moveTo 0 2, .print pausedHelpMsg], true) := by
  cases b <;> exact ⟨rfl, rfl, rfl⟩

/-- Claim C10: every state reachable by the loop from the initial state keeps
`remaining ≤ initial`, so the elapsed-time subtraction
`initial_duration - duration` in the quit path never underflows. -/
theorem c10_loop_invariant (init : Dur) (evs : List TEvent) (st : LoopState)
    (h : timerRun init ⟨init, false, true⟩ evs = some st) :
    Dur.le st.duration init ∧ (Dur.checkedSub init st.duration).isSome = true := by
  have hle := timerRun_le init evs ⟨init, false, true⟩ st h
  exact ⟨hle, dur_le_checkedSub_isSome _ _ hle⟩

/-- Witness for C10: after one tick from an initial 5 s the remaining 4 s is
below the initial duration and the elapsed-time subtraction succeeds. -/
theorem c10_loop_invariant_witness :
    Dur.le ⟨4, 0⟩ ⟨5, 0⟩ ∧ (Dur.checkedSub ⟨5, 0⟩ ⟨4, 0⟩).isSome = true :=
  c10_loop_invariant ⟨5, 0⟩ [.tick] ⟨⟨4, 0⟩, false, true⟩ (by decide)
